import Mathlib

/-!
Verification of the chrome-page-server application (server.js).

The development shallowly embeds the parts of server.js that the checked
properties are about: the HTML sanitizer, the Turndown image rule, URL
validation, the browser lifecycle state (module variables browser and
browserPage, the function initBrowser, the start/stop/disconnect handlers)
and the /api/get-markdown fetch pipeline.  External collaborators
(puppeteer, the page, Turndown on non-image markup, the Node URL module)
are modeled through an explicit environment of oracles: a Bool per awaited
call that can throw, a value per call that produces one.
-/

namespace ChromePageServer

/-- The NUL character U+0000. -/
def nulChar : Char := '\x00'

/-- The line-separator character U+2028. -/
def lineSep : Char := '\u2028'

/-- The paragraph-separator character U+2029. -/
def paraSep : Char := '\u2029'

/-- First pass of sanitizeHtml (server.js line 158): html.replace of every
NUL with the empty string, i.e. a global removal of U+0000. -/
def stripNulls (s : String) : String :=
  ⟨s.data.filter (fun c => c != nulChar)⟩

/-- Second pass of sanitizeHtml (server.js line 161): global replacement of
the character class U+2028, U+2029 by a single space. -/
def replaceSeparators (s : String) : String :=
  ⟨s.data.map (fun c => if c = lineSep ∨ c = paraSep then ' ' else c)⟩

/-- The function sanitizeHtml (server.js lines 156-164): strip NULs, then
replace the separator characters by spaces. -/
def sanitizeHtml (s : String) : String :=
  replaceSeparators (stripNulls s)

/-- Per-character action as the specification words it: every NUL is
removed, every U+2028 and U+2029 becomes a single plain space, every
other character is left unchanged.  Stated separately from sanitizeHtml
(which mirrors the two regex passes of the source) so the two can be
proved equal. -/
def sanitizeCharClaim (c : Char) : Option Char :=
  if c = nulChar then none
  else if c = lineSep ∨ c = paraSep then some ' '
  else some c

/-- One-pass sanitizer built from the per-character claim. -/
def sanitizeHtmlClaim (s : String) : String :=
  ⟨s.data.filterMap sanitizeCharClaim⟩

/-- An img DOM node as the Turndown replacement rule sees it: each
attribute is either present with a string value or absent (getAttribute
returns null for an absent attribute). -/
structure ImgNode where
  alt : Option String
  src : Option String
  title : Option String
deriving DecidableEq, Repr

/-- The JS idiom node.getAttribute(name) || "": null (absent attribute)
and the empty string are both falsy, so both yield the empty string. -/
def attrOrEmpty : Option String → String
  | none => ""
  | some s => s

/-- The replacement function of the Turndown rule "preserveImages"
(server.js lines 174-187).  The conditional if (src) is JS truthiness on
a string, i.e. it takes the first branch exactly when src is non-empty;
likewise the title segment is appended only for a non-empty title.  The
content argument is ignored by the source as well. -/
def imageReplacement (content : String) (node : ImgNode) : String :=
  let alt := attrOrEmpty node.alt
  let src := attrOrEmpty node.src
  let title := attrOrEmpty node.title
  let _ := content
  if src ≠ "" then
    "![" ++ alt ++ "](" ++ src ++ (if title ≠ "" then " \"" ++ title ++ "\"" else "") ++ ")"
  else
    ""

/-- Characters allowed in a URI scheme after the initial letter. -/
def schemeChar (c : Char) : Bool :=
  c.isAlpha || c.isDigit || c = '+' || c = '-' || c = '.'

/-- Modelled from the spec: the WHATWG URL constructor of the Node url
module (required by server.js but not part of src/), used by sanitizeUrl.
The spec states the url must parse as an absolute URI and that a missing
scheme or the empty string fails.  Simplified model: the string must begin
with a scheme — an ASCII letter followed by scheme characters — then a
colon; normalization is modeled as the identity on accepted strings. -/
def nodeParseUrl (s : String) : Option String :=
  let pre := s.data.takeWhile (fun c => c != ':')
  if pre.length = s.data.length then none
  else
    match pre with
    | [] => none
    | c :: cs => if c.isAlpha && cs.all schemeChar then some s else none

/-- One condition awaited inside the readiness Promise.all of the
get-markdown handler (server.js lines 259-274): the waitForNetworkIdle
call, the document-complete evaluate, and the setTimeout of the requested
fixed delay. -/
inductive WaitCond
  | networkIdle
  | documentComplete
  | delay (ms : Nat)
deriving DecidableEq, Repr

/-- The list of conditions the handler combines with Promise.all, in
source order (server.js lines 259-274). -/
def readinessConds (waitTime : Nat) : List WaitCond :=
  [WaitCond.networkIdle, WaitCond.documentComplete, WaitCond.delay waitTime]

/-- Settle instants of the two external readiness signals on a particular
page load, in milliseconds from the start of the wait. -/
structure WaitTimes where
  networkIdle : Nat
  documentComplete : Nat

/-- Instant at which one awaited condition settles: the two signals settle
when the page makes them settle, a delay of ms settles after ms. -/
def condSettle (t : WaitTimes) : WaitCond → Nat
  | WaitCond.networkIdle => t.networkIdle
  | WaitCond.documentComplete => t.documentComplete
  | WaitCond.delay ms => ms

/-- Promise.all settles exactly when the last of its promises settles. -/
def allSettle (t : WaitTimes) (conds : List WaitCond) : Nat :=
  (conds.map (condSettle t)).foldr max 0

/-- Where markup extraction took its serialized HTML from (server.js
lines 305-319). -/
inductive ExtractSource
  | element (selector : String)
  | fullDocument
deriving DecidableEq, Repr

/-- Externally visible page interactions of the get-markdown handler, in
program order. -/
inductive Event
  | launch
  | navigate (url : String)
  | readinessWait (conds : List WaitCond)
  | extraDelay (ms : Nat)
  | selectorWait (selector : String) (becameVisible : Bool)
  | notLoadedDelay (ms : Nat)
  | extract (source : ExtractSource)
deriving DecidableEq, Repr

/-- An HTTP response produced by one of the handlers: a 200 JSON status
object, the 200 get-markdown result object, or an error status with the
error field and the optional message field. -/
inductive Resp
  | okStatus (status : String)
  | okMarkdown (url markdown title : String)
  | err (code : Nat) (error : String) (message : Option String)
deriving DecidableEq, Repr

/-- HTTP status code of a response: res.json defaults to 200. -/
def Resp.statusCode : Resp → Nat
  | Resp.okStatus _ => 200
  | Resp.okMarkdown _ _ _ => 200
  | Resp.err code _ _ => code

/-- Behavior of the external collaborators during one request: for each
awaited call that can throw, a Bool saying whether it succeeds and the
message it would throw with; for each call that produces a value, the
value. -/
structure Env where
  parseUrl : String → Option String
  launchOk : Bool
  newPageOk : Bool
  navigateOk : Bool
  navigateMsg : String
  readyOk : Bool
  readyMsg : String
  handlerNewPageOk : Bool
  handlerNewPageMsg : String
  selectorVisible : Bool
  selectorFound : Bool
  pageLoaded : Bool
  elementHtml : String
  fullHtml : String
  pageTitle : String
  turndown : String → String
  closeOk : Bool
  closeMsg : String

/-- The module-level mutable state of server.js (lines 25-26): the
browser and browserPage variables.  Handles are modeled as identifiers
drawn from a counter so that identity can be compared; launchCount counts
the puppeteer.launch invocations performed so far. -/
structure ServerState where
  browser : Option Nat
  browserPage : Option Nat
  nextId : Nat
  launchCount : Nat
deriving DecidableEq, Repr

/-- State at module load: both variables are null. -/
def initialState : ServerState :=
  { browser := none, browserPage := none, nextId := 0, launchCount := 0 }

/-- The parsed JSON body of POST /api/get-markdown after the destructuring
with default on line 227: url and selector may be absent, waitTime
defaults to 2000 when absent. -/
structure FetchReq where
  url : Option String
  waitTime : Option Nat
  selector : Option String
deriving DecidableEq, Repr

/-- The function initBrowser (server.js lines 29-140) with sequential
semantics.  puppeteer.launch either yields a fresh connection handle or
throws (launchOk); newPage together with the following viewport and
user-agent setup either yields a fresh page or throws (newPageOk); the
surrounding try/catch turns any throw into clearing both variables and
returning false.  Returns the success flag, the new state and the log
lines emitted. -/
def initBrowser (env : Env) (s : ServerState) : Bool × ServerState × List String :=
  let s0 := { s with launchCount := s.launchCount + 1 }
  if env.launchOk then
    let s1 := { s0 with browser := some s0.nextId, nextId := s0.nextId + 1 }
    if env.newPageOk then
      (true,
        { s1 with browserPage := some s1.nextId, nextId := s1.nextId + 1 },
        ["Browser launched successfully"])
    else
      (false, { s1 with browser := none, browserPage := none }, ["Error launching browser"])
  else
    (false, { s0 with browser := none, browserPage := none }, ["Error launching browser"])

/-- Handler of GET /api/status (server.js lines 190-195), status field
only; the uptime field is delegated to the process and out of scope. -/
def statusHandler (s : ServerState) : Resp :=
  Resp.okStatus (if s.browser.isSome then "Browser running" else "Browser not running")

/-- Handler of POST /api/start-browser (server.js lines 197-208). -/
def startBrowser (env : Env) (s : ServerState) : Resp × ServerState :=
  match s.browser with
  | some _ => (Resp.okStatus "Browser already running", s)
  | none =>
    let (ok, s1, _) := initBrowser env s
    if ok then (Resp.okStatus "Browser started successfully", s1)
    else (Resp.err 500 "Failed to start browser" none, s1)

/-- Handler of POST /api/stop-browser (server.js lines 210-223).  When
browser.close throws, the catch responds 500 before the two variables
would have been cleared, so the state is left unchanged. -/
def stopBrowser (env : Env) (s : ServerState) : Resp × ServerState :=
  match s.browser with
  | none => (Resp.okStatus "Browser not running", s)
  | some _ =>
    if env.closeOk then
      (Resp.okStatus "Browser stopped successfully",
        { s with browser := none, browserPage := none })
    else
      (Resp.err 500 ("Failed to stop browser: " ++ env.closeMsg) none, s)

/-- Clearing of both session variables, the first action of the
disconnected handler after its directory cleanup (server.js lines
105-106). -/
def clearSession (s : ServerState) : ServerState :=
  { s with browser := none, browserPage := none }

/-- The disconnected handler installed by initBrowser (server.js lines
96-108): log, clear both variables, then await initBrowser with its
result discarded.  The handler is an event callback with no caller to
report to, so its type carries no error component: failures of the
restart appear only in the log lines. -/
def onDisconnected (env : Env) (s : ServerState) : ServerState × List String :=
  let s0 := clearSession s
  let (_, s1, logs) := initBrowser env s0
  (s1, "Browser disconnected. Cleaning up..." :: logs)

/-- Tail of the get-markdown handler once a browser and a page exist
(server.js lines 248-331): navigate with a bounded timeout, await the
readiness Promise.all of the three conditions, sleep a further 2000 ms,
optionally wait for the selector inside a try/catch that only logs, rerun
the loaded check and sleep 5000 ms more when it fails, extract markup
from the matched element or from the full document, sanitize, convert,
respond.  Any throw is caught by the surrounding catch and becomes a 500
with the error message attached. -/
def getMarkdownFetch (env : Env) (req : FetchReq) (s : ServerState)
    (sanitizedUrl : String) (pre : List Event) : Resp × ServerState × List Event :=
  if env.navigateOk then
    let wt := req.waitTime.getD 2000
    let ev1 := pre ++ [Event.navigate sanitizedUrl, Event.readinessWait (readinessConds wt)]
    if env.readyOk then
      let ev2 := ev1 ++ [Event.extraDelay 2000]
      let ev3 :=
        match req.selector with
        | none => ev2
        | some sel => ev2 ++ [Event.selectorWait sel env.selectorVisible]
      let ev4 := if env.pageLoaded then ev3 else ev3 ++ [Event.notLoadedDelay 5000]
      let src :=
        match req.selector with
        | some sel =>
          if env.selectorFound then ExtractSource.element sel else ExtractSource.fullDocument
        | none => ExtractSource.fullDocument
      let html :=
        match req.selector with
        | some _ => if env.selectorFound then env.elementHtml else env.fullHtml
        | none => env.fullHtml
      (Resp.okMarkdown sanitizedUrl (env.turndown (sanitizeHtml html)) env.pageTitle,
        s, ev4 ++ [Event.extract src])
    else
      (Resp.err 500 "Failed to process URL" (some env.readyMsg), s, ev1)
  else
    (Resp.err 500 "Failed to process URL" (some env.navigateMsg), s,
      pre ++ [Event.navigate sanitizedUrl])

/-- Middle of the get-markdown handler (server.js lines 244-246): when
browserPage is null a new page is created on the existing browser; a
throw there is caught by the surrounding catch as a 500. -/
def getMarkdownWithBrowser (env : Env) (req : FetchReq) (s : ServerState)
    (sanitizedUrl : String) (pre : List Event) : Resp × ServerState × List Event :=
  match s.browserPage with
  | some _ => getMarkdownFetch env req s sanitizedUrl pre
  | none =>
    if env.handlerNewPageOk then
      getMarkdownFetch env req
        { s with browserPage := some s.nextId, nextId := s.nextId + 1 } sanitizedUrl pre
    else
      (Resp.err 500 "Failed to process URL" (some env.handlerNewPageMsg), s, pre)

/-- Handler of POST /api/get-markdown (server.js lines 225-340) with
sequential semantics.  A missing or empty url is falsy in JS, so the
url-required check rejects it with 400 before sanitizeUrl runs; a
non-empty url that the URL constructor rejects makes sanitizeUrl throw
the message "Invalid URL format", which the surrounding catch turns into
a 500; otherwise the handler ensures a browser (launching one when the
browser variable is null, answering 500 directly when that fails) and
runs the fetch pipeline.  Returns the response, the final module state
and the ordered trace of page interactions. -/
def getMarkdown (env : Env) (req : FetchReq) (s : ServerState) :
    Resp × ServerState × List Event :=
  match req.url with
  | none => (Resp.err 400 "URL is required" none, s, [])
  | some u =>
    if u = "" then (Resp.err 400 "URL is required" none, s, [])
    else
      match env.parseUrl u with
      | none => (Resp.err 500 "Failed to process URL" (some "Invalid URL format"), s, [])
      | some sanitizedUrl =>
        match s.browser with
        | none =>
          let (ok, s1, _) := initBrowser env s
          if ok then getMarkdownWithBrowser env req s1 sanitizedUrl [Event.launch]
          else (Resp.err 500 "Failed to start browser" none, s1, [Event.launch])
        | some _ => getMarkdownWithBrowser env req s sanitizedUrl []

/-- Markup the handler extracts under a given environment and request:
the matched element when a selector is given and matches, the full
document otherwise (server.js lines 305-319). -/
def extractedHtml (env : Env) (req : FetchReq) : String :=
  match req.selector with
  | some _ => if env.selectorFound then env.elementHtml else env.fullHtml
  | none => env.fullHtml

/-- Session invariant: the browser variable and the browserPage variable
are both set or both null. -/
def sessionInvariant (s : ServerState) : Prop :=
  s.browser.isSome = s.browserPage.isSome

/-- Program counter of one get-markdown request at its ensure-browser
step (server.js lines 236-242) under the interleaving semantics of the
single-threaded event loop: check is about to evaluate the null test of
the browser variable; launching is suspended inside await initBrowser at
the puppeteer.launch await (line 43) with the launch already in flight;
done has finished the ensure step.  Each scheduler step below is one
uninterrupted synchronous segment between awaits. -/
inductive EnsurePC
  | check
  | launching
  | done
deriving DecidableEq, Repr

/-- Shared state plus the program counters of the interleaved requests. -/
structure ConcState where
  browser : Option Nat
  nextId : Nat
  launchCount : Nat
  pcs : List EnsurePC
deriving DecidableEq, Repr

/-- One scheduler step: run the next synchronous segment of request i.
At check, the null test runs: when a browser exists the ensure step is
complete, otherwise initBrowser is entered, puppeteer.launch is invoked
(counted) and awaited.  At launching, the launch resolves and the browser
variable is assigned a fresh handle. -/
def concStep (s : ConcState) (i : Nat) : ConcState :=
  match s.pcs.get? i with
  | some EnsurePC.check =>
    if s.browser.isSome then { s with pcs := s.pcs.set i EnsurePC.done }
    else { s with launchCount := s.launchCount + 1, pcs := s.pcs.set i EnsurePC.launching }
  | some EnsurePC.launching =>
    { s with
      browser := some s.nextId
      nextId := s.nextId + 1
      pcs := s.pcs.set i EnsurePC.done }
  | _ => s

/-- Run a schedule, a list of request indices, from a state. -/
def concRun (s : ConcState) (sched : List Nat) : ConcState :=
  sched.foldl concStep s

/-- n pending requests all at their check step while no browser exists. -/
def concInit (n : Nat) : ConcState :=
  { browser := none, nextId := 0, launchCount := 0, pcs := List.replicate n EnsurePC.check }

/-- A fully cooperative environment used to instantiate theorems at
concrete inputs: the modeled URL parser, every awaited call succeeding,
concrete page data, and the identity as the behavior of the conversion
library on sanitized markup. -/
def sampleEnv : Env where
  parseUrl := nodeParseUrl
  launchOk := true
  newPageOk := true
  navigateOk := true
  navigateMsg := "nav error"
  readyOk := true
  readyMsg := "ready error"
  handlerNewPageOk := true
  handlerNewPageMsg := "newpage error"
  selectorVisible := true
  selectorFound := true
  pageLoaded := true
  elementHtml := "<div>element</div>"
  fullHtml := "<html><body>full</body></html>"
  pageTitle := "Example Title"
  turndown := fun s => s
  closeOk := true
  closeMsg := "close error"

/-- A selectorless request for a well-formed absolute URL. -/
def sampleReq : FetchReq :=
  { url := some "https://example.com", waitTime := none, selector := none }

/-- A state in which a session is live: both variables set. -/
def liveState : ServerState :=
  { browser := some 0, browserPage := some 1, nextId := 2, launchCount := 1 }

/-- List-level form of the two sanitizer passes fused into the claimed
one-pass character action. -/
theorem sanitize_passes_fuse (l : List Char) :
    (l.filter (fun c => c != nulChar)).map
        (fun c => if c = lineSep ∨ c = paraSep then ' ' else c) =
      l.filterMap sanitizeCharClaim := by
  induction l with
  | nil => rfl
  | cons c l ih =>
    simp only [List.filter_cons, List.filterMap_cons]
    by_cases h : c = nulChar
    · simp [sanitizeCharClaim, h, ih]
    · by_cases h2 : c = lineSep ∨ c = paraSep
      · simp [sanitizeCharClaim, h, h2, ih]
      · simp [sanitizeCharClaim, h, h2, ih]

/-- Claim C4: the markup sanitization removes every NUL character,
replaces every U+2028 and U+2029 by a single plain space and leaves all
other characters unchanged — the two regex passes of the source equal
the claimed one-pass character action, and no NUL survives — and the
get-markdown handler applies this sanitization to the extracted markup
before handing it to the Markdown conversion. -/
theorem sanitizeHtml_matches_claim_and_precedes_conversion (s : String) (env : Env)
    (req : FetchReq) (st : ServerState) :
    sanitizeHtml s = sanitizeHtmlClaim s ∧
    nulChar ∉ (sanitizeHtml s).data ∧
    (∀ u su b p, req.url = some u → u ≠ "" → env.parseUrl u = some su →
      st.browser = some b → st.browserPage = some p →
      env.navigateOk = true → env.readyOk = true →
      (getMarkdown env req st).1 =
        Resp.okMarkdown su (env.turndown (sanitizeHtml (extractedHtml env req)))
          env.pageTitle) := by
  refine ⟨?_, ?_, ?_⟩
  · exact congrArg String.mk (sanitize_passes_fuse s.data)
  · intro hmem
    have hdata : (sanitizeHtml s).data =
        (s.data.filter (fun c => c != nulChar)).map
          (fun c => if c = lineSep ∨ c = paraSep then ' ' else c) := rfl
    rw [hdata] at hmem
    obtain ⟨c, hc, hfc⟩ := List.mem_map.mp hmem
    have hcne : c ≠ nulChar := by simpa using List.of_mem_filter hc
    by_cases h2 : c = lineSep ∨ c = paraSep
    · rw [if_pos h2] at hfc
      exact absurd hfc (by decide)
    · rw [if_neg h2] at hfc
      exact hcne hfc
  · intro u su b p h1 h2 h3 h4 h5 h6 h7
    simp [getMarkdown, h1, h2, h3, h4, h5, getMarkdownWithBrowser, getMarkdownFetch, h6, h7,
      extractedHtml]

/-- Witness for claim C4 at a concrete environment, request and state:
the response markdown field is the conversion of the sanitized extracted
markup. -/
theorem sanitizeHtml_matches_claim_and_precedes_conversion_witness :
    (getMarkdown sampleEnv sampleReq liveState).1 =
      Resp.okMarkdown "https://example.com"
        (sampleEnv.turndown (sanitizeHtml (extractedHtml sampleEnv sampleReq)))
        sampleEnv.pageTitle :=
  (sanitizeHtml_matches_claim_and_precedes_conversion "" sampleEnv sampleReq liveState).2.2
    "https://example.com" "https://example.com" 0 1 rfl (by decide) (by decide) rfl rfl rfl rfl

/-- Claim C10: for every img element whose src attribute is present but
equal to the empty string, the image override emits the empty string —
an empty src is treated exactly like an absent src, so such images are
silently dropped even though the attribute exists. -/
theorem img_empty_src_dropped_like_absent (content : String) (alt title : Option String) :
    imageReplacement content { alt := alt, src := some "", title := title } = "" ∧
    imageReplacement content { alt := alt, src := some "", title := title } =
      imageReplacement content { alt := alt, src := none, title := title } := by
  constructor <;> simp [imageReplacement, attrOrEmpty]

/-- Claim C3 counterexample: at an img node with alt x and a present but
empty src attribute the override yields the empty string, not the image
syntax the claim promises whenever the src attribute is present. -/
theorem img_present_empty_src_counterexample :
    imageReplacement "" { alt := some "x", src := some "", title := none } = "" ∧
    imageReplacement "" { alt := some "x", src := some "", title := none } ≠ "![x]()" := by
  constructor <;> decide

/-- Claim C3 as amended: the image override yields the Markdown image
syntax built from alt, src and an optional title segment when the src
attribute is present and non-empty — alt and title default to the empty
string when absent and the title segment is omitted when the title is
empty, so an img with src a.png and alt x yields exactly the expected
literal — and yields the empty string when the src attribute is
absent. -/
theorem img_rule_renders_nonempty_src (content : String) (node : ImgNode) :
    (∀ srcv, node.src = some srcv → srcv ≠ "" →
      imageReplacement content node =
        "![" ++ attrOrEmpty node.alt ++ "](" ++ srcv ++
          (if attrOrEmpty node.title ≠ "" then
            " \"" ++ attrOrEmpty node.title ++ "\"" else "") ++ ")") ∧
    (node.src = none → imageReplacement content node = "") ∧
    imageReplacement "c" { alt := some "x", src := some "a.png", title := none } =
      "![x](a.png)" := by
  refine ⟨?_, ?_, ?_⟩
  · intro srcv h hne
    simp [imageReplacement, attrOrEmpty, h, hne]
  · intro h
    simp [imageReplacement, attrOrEmpty, h]
  · decide

/-- Witness instantiating the amended image rule at a concrete node with
all three attributes present. -/
theorem img_rule_renders_nonempty_src_witness :
    imageReplacement "c" { alt := some "x", src := some "a.png", title := some "t" } =
      "![x](a.png \"t\")" := by
  have h := (img_rule_renders_nonempty_src "c"
    { alt := some "x", src := some "a.png", title := some "t" }).1 "a.png" rfl (by decide)
  rw [h]
  decide

/-- Claim C7: calling the start handler while a browser is live is an
idempotent no-op answering that the browser is already running; the
state, hence the connection identity, is exactly the one from before the
call. -/
theorem start_while_live_is_noop (env : Env) (s : ServerState) (b : Nat)
    (h : s.browser = some b) :
    startBrowser env s = (Resp.okStatus "Browser already running", s) ∧
    (startBrowser env s).2.browser = some b := by
  refine ⟨?_, ?_⟩ <;> simp [startBrowser, h]

/-- Witness for claim C7 at the concrete live state. -/
theorem start_while_live_is_noop_witness :
    startBrowser sampleEnv liveState = (Resp.okStatus "Browser already running", liveState) :=
  (start_while_live_is_noop sampleEnv liveState 0 rfl).1

/-- A request carrying a non-empty string that is not an absolute URI. -/
def badReq : FetchReq :=
  { url := some "not a url", waitTime := none, selector := none }

/-- The cooperative environment with a failing browser launch. -/
def failEnv : Env :=
  { sampleEnv with launchOk := false }

/-- The cooperative environment where the selector wait times out and no
element matches the selector. -/
def noSelEnv : Env :=
  { sampleEnv with selectorVisible := false, selectorFound := false }

/-- A request with a selector. -/
def selReq : FetchReq :=
  { url := some "https://example.com", waitTime := some 100, selector := some ".main" }

/-- Claim C1 counterexample: the request with the non-empty malformed url
is answered with HTTP status 500, not with the 400 the claim asserts for
the InvalidUrl class; the rejection does happen before any navigation,
the trace being empty. -/
theorem malformed_url_counterexample :
    Resp.statusCode (getMarkdown sampleEnv badReq initialState).1 = 500 ∧
    Resp.statusCode (getMarkdown sampleEnv badReq initialState).1 ≠ 400 ∧
    (getMarkdown sampleEnv badReq initialState).2.2 = [] := by
  refine ⟨?_, ?_, ?_⟩ <;> decide

/-- Claim C1 as amended: every malformed url is rejected before any page
interaction — the trace is empty, so no navigation and no launch occurs —
but the response is split by the source in two ways: the empty string is
caught by the falsy url-required check and answered 400 with the error
"URL is required", while a non-empty string the URL constructor rejects
makes sanitizeUrl throw and is answered 500 with the error
"Failed to process URL" and the message "Invalid URL format". -/
theorem malformed_url_rejected_before_navigation (env : Env) (req : FetchReq)
    (s : ServerState) (u : String) (h1 : req.url = some u)
    (h2 : env.parseUrl u = none) :
    (getMarkdown env req s).2.2 = [] ∧
    (getMarkdown env req s).1 =
      (if u = "" then Resp.err 400 "URL is required" none
       else Resp.err 500 "Failed to process URL" (some "Invalid URL format")) := by
  refine ⟨?_, ?_⟩ <;> by_cases h : u = "" <;> simp [getMarkdown, h1, h, h2]

/-- Witness for the amended claim C1 at the concrete malformed url. -/
theorem malformed_url_rejected_before_navigation_witness :
    (getMarkdown sampleEnv badReq initialState).2.2 = [] ∧
    (getMarkdown sampleEnv badReq initialState).1 =
      (if ("not a url" : String) = "" then Resp.err 400 "URL is required" none
       else Resp.err 500 "Failed to process URL" (some "Invalid URL format")) :=
  malformed_url_rejected_before_navigation sampleEnv badReq initialState "not a url"
    rfl (by decide)

/-- Whatever happens inside initBrowser, the resulting state has both
session variables set (success) or both null (failure). -/
theorem initBrowser_invariant (env : Env) (s : ServerState) :
    sessionInvariant (initBrowser env s).2.1 := by
  by_cases h1 : env.launchOk = true <;> by_cases h2 : env.newPageOk = true <;>
    simp [initBrowser, sessionInvariant, h1, h2]

/-- A successful initBrowser leaves both variables set to the fresh
handles. -/
theorem initBrowser_success_state (env : Env) (s : ServerState) (ok : Bool)
    (s1 : ServerState) (logs : List String)
    (hinit : initBrowser env s = (ok, s1, logs)) (hok : ok = true) :
    s1.browser = some s.nextId ∧ s1.browserPage = some (s.nextId + 1) := by
  subst hok
  by_cases h1 : env.launchOk = true
  · by_cases h2 : env.newPageOk = true
    · simp [initBrowser, h1, h2] at hinit
      obtain ⟨hs, -⟩ := hinit
      subst hs
      exact ⟨rfl, rfl⟩
    · simp [initBrowser, h1, h2] at hinit
  · simp [initBrowser, h1] at hinit

/-- The fetch tail of the get-markdown handler never writes the session
variables: its final state is the state it was entered with. -/
theorem getMarkdownFetch_state_eq (env : Env) (req : FetchReq) (s : ServerState)
    (su : String) (pre : List Event) :
    (getMarkdownFetch env req s su pre).2.1 = s := by
  by_cases h1 : env.navigateOk = true <;> by_cases h2 : env.readyOk = true <;>
    simp [getMarkdownFetch, h1, h2]

/-- Claim C6: the session invariant — the page variable is set exactly
when the browser variable is — holds in the initial state and is
preserved by every operation that mutates the session state: the start
handler, the stop handler, the disconnected handler and the get-markdown
handler. -/
theorem session_invariant_preserved (env : Env) (req : FetchReq) (s : ServerState)
    (h : sessionInvariant s) :
    sessionInvariant (startBrowser env s).2 ∧
    sessionInvariant (stopBrowser env s).2 ∧
    sessionInvariant (onDisconnected env s).1 ∧
    sessionInvariant (getMarkdown env req s).2.1 ∧
    sessionInvariant initialState := by
  refine ⟨?_, ?_, ?_, ?_, by simp [sessionInvariant, initialState]⟩
  · rcases hb : s.browser with _ | b
    · rcases hinit : initBrowser env s with ⟨ok, s1, logs⟩
      have hi := initBrowser_invariant env s
      rw [hinit] at hi
      cases ok <;> simpa [startBrowser, hb, hinit] using hi
    · simpa [startBrowser, hb] using h
  · rcases hb : s.browser with _ | b
    · simpa [stopBrowser, hb] using h
    · by_cases hc : env.closeOk = true
      · simp [stopBrowser, hb, hc, sessionInvariant]
      · simpa [stopBrowser, hb, hc] using h
  · rcases hinit : initBrowser env (clearSession s) with ⟨ok, s1, logs⟩
    have hi := initBrowser_invariant env (clearSession s)
    rw [hinit] at hi
    simpa [onDisconnected, hinit] using hi
  · rcases hu : req.url with _ | u
    · simpa [getMarkdown, hu] using h
    · by_cases he : u = ""
      · simpa [getMarkdown, hu, he] using h
      · rcases hp : env.parseUrl u with _ | su
        · simpa [getMarkdown, hu, he, hp] using h
        · rcases hb : s.browser with _ | b
          · rcases hinit : initBrowser env s with ⟨ok, s1, logs⟩
            have hi := initBrowser_invariant env s
            rw [hinit] at hi
            cases ok
            · simpa [getMarkdown, hu, he, hp, hb, hinit] using hi
            · obtain ⟨hba, hbp⟩ := initBrowser_success_state env s true s1 logs hinit rfl
              simpa [getMarkdown, hu, he, hp, hb, hinit, getMarkdownWithBrowser,
                hbp, getMarkdownFetch_state_eq] using hi
          · have hps : s.browser.isSome = s.browserPage.isSome := h
            rw [hb] at hps
            simp at hps
            rcases hq : s.browserPage with _ | p
            · rw [hq] at hps
              simp at hps
            · simpa [getMarkdown, hu, he, hp, hb, getMarkdownWithBrowser, hq,
                getMarkdownFetch_state_eq] using h

/-- Witness for claim C6 at a concrete environment, request and state. -/
theorem session_invariant_preserved_witness :
    sessionInvariant (getMarkdown sampleEnv sampleReq initialState).2.1 :=
  (session_invariant_preserved sampleEnv sampleReq initialState rfl).2.2.2.1

/-- Claim C9: on the disconnect signal the handler clears both session
variables — the state handed to the restart is Absent — and then runs
exactly one automatic start attempt whose outcome is discarded: the
handler produces only a state and log lines, with no error channel to any
caller, so when the relaunch fails the state stays Absent and the failure
shows up only as the error log line. -/
theorem disconnect_clears_then_restarts_log_only (env : Env) (s : ServerState) :
    (clearSession s).browser = none ∧
    (clearSession s).browserPage = none ∧
    onDisconnected env s =
      ((initBrowser env (clearSession s)).2.1,
        "Browser disconnected. Cleaning up..." :: (initBrowser env (clearSession s)).2.2) ∧
    (onDisconnected env s).1.launchCount = s.launchCount + 1 ∧
    (env.launchOk = false →
      (onDisconnected env s).1.browser = none ∧
      (onDisconnected env s).1.browserPage = none ∧
      "Error launching browser" ∈ (onDisconnected env s).2) := by
  refine ⟨rfl, rfl, ?_, ?_, ?_⟩
  · rcases hinit : initBrowser env (clearSession s) with ⟨ok, s1, logs⟩
    simp [onDisconnected, hinit]
  · by_cases h1 : env.launchOk = true <;> by_cases h2 : env.newPageOk = true <;>
      simp [onDisconnected, initBrowser, clearSession, h1, h2]
  · intro hfail
    refine ⟨?_, ?_, ?_⟩ <;> simp [onDisconnected, initBrowser, clearSession, hfail]

/-- Witness for claim C9: a disconnect with a failing relaunch leaves the
state Absent with the failure only in the log lines. -/
theorem disconnect_clears_then_restarts_log_only_witness :
    (onDisconnected failEnv liveState).1.browser = none ∧
    (onDisconnected failEnv liveState).1.browserPage = none ∧
    "Error launching browser" ∈ (onDisconnected failEnv liveState).2 :=
  (disconnect_clears_then_restarts_log_only failEnv liveState).2.2.2.2 rfl

/-- Claim C2: after a successful navigation the handler performs the
readiness wait — a Promise.all of exactly the network-idle signal, the
document-complete signal and a flat delay of the requested waitMillis —
immediately after the navigate step and before everything that follows,
in particular before the extraction; Promise.all settles at the maximum
of the settle instants of its conditions, so the wait finishes no earlier
than the fixed delay and no earlier than either signal: the delay is
unconditional and never raced against or replaced by the other two
conditions. -/
theorem readiness_wait_all_three_before_extraction (env : Env) (req : FetchReq)
    (s : ServerState) (u su : String) (b p : Nat)
    (h1 : req.url = some u) (h2 : u ≠ "") (h3 : env.parseUrl u = some su)
    (h4 : s.browser = some b) (h5 : s.browserPage = some p)
    (h6 : env.navigateOk = true) (h7 : env.readyOk = true) :
    (∃ rest,
      (getMarkdown env req s).2.2 =
        Event.navigate su ::
          Event.readinessWait (readinessConds (req.waitTime.getD 2000)) :: rest ∧
      ∃ src, Event.extract src ∈ rest) ∧
    readinessConds (req.waitTime.getD 2000) =
      [WaitCond.networkIdle, WaitCond.documentComplete,
        WaitCond.delay (req.waitTime.getD 2000)] ∧
    (∀ t : WaitTimes,
      allSettle t (readinessConds (req.waitTime.getD 2000)) =
        max t.networkIdle (max t.documentComplete (req.waitTime.getD 2000)) ∧
      req.waitTime.getD 2000 ≤ allSettle t (readinessConds (req.waitTime.getD 2000)) ∧
      t.networkIdle ≤ allSettle t (readinessConds (req.waitTime.getD 2000)) ∧
      t.documentComplete ≤ allSettle t (readinessConds (req.waitTime.getD 2000))) := by
  refine ⟨?_, rfl, ?_⟩
  · rcases hsel : req.selector with _ | sel <;> by_cases hpl : env.pageLoaded = true <;>
      simp [getMarkdown, h1, h2, h3, h4, h5, getMarkdownWithBrowser, getMarkdownFetch,
        h6, h7, hsel, hpl]
  · intro t
    simp only [allSettle, readinessConds, condSettle, List.map_cons, List.map_nil,
      List.foldr_cons, List.foldr_nil, Nat.max_zero]
    exact ⟨trivial, le_max_of_le_right (le_max_right _ _), le_max_left _ _,
      le_max_of_le_right (le_max_left _ _)⟩

/-- Witness for claim C2 at the concrete cooperative environment. -/
theorem readiness_wait_all_three_before_extraction_witness :
    ∃ rest,
      (getMarkdown sampleEnv sampleReq liveState).2.2 =
        Event.navigate "https://example.com" ::
          Event.readinessWait (readinessConds 2000) :: rest ∧
      ∃ src, Event.extract src ∈ rest :=
  (readiness_wait_all_three_before_extraction sampleEnv sampleReq liveState
    "https://example.com" "https://example.com" 0 1 rfl (by decide) (by decide)
    rfl rfl rfl rfl).1

/-- Claim C8: with a selector given, a selector wait that times out is
non-fatal — the handler proceeds after logging — and when no element
matches the selector at extraction time the full document markup is
extracted: the response is the 200 result built from the full document,
the trace records the failed selector wait and a full-document
extraction, and no element extraction occurs. -/
theorem selector_timeout_nonfatal_falls_back (env : Env) (req : FetchReq)
    (s : ServerState) (u su sel : String) (b p : Nat)
    (h1 : req.url = some u) (h2 : u ≠ "") (h3 : env.parseUrl u = some su)
    (h4 : s.browser = some b) (h5 : s.browserPage = some p)
    (h6 : env.navigateOk = true) (h7 : env.readyOk = true)
    (h8 : req.selector = some sel) (h9 : env.selectorVisible = false)
    (h10 : env.selectorFound = false) :
    (getMarkdown env req s).1 =
      Resp.okMarkdown su (env.turndown (sanitizeHtml env.fullHtml)) env.pageTitle ∧
    Event.selectorWait sel false ∈ (getMarkdown env req s).2.2 ∧
    Event.extract ExtractSource.fullDocument ∈ (getMarkdown env req s).2.2 ∧
    Event.extract (ExtractSource.element sel) ∉ (getMarkdown env req s).2.2 := by
  by_cases hpl : env.pageLoaded = true <;>
    refine ⟨?_, ?_, ?_, ?_⟩ <;>
      simp [getMarkdown, h1, h2, h3, h4, h5, getMarkdownWithBrowser, getMarkdownFetch,
        h6, h7, h8, h9, h10, hpl]

/-- Witness for claim C8 at the concrete environment where the selector
wait times out and nothing matches the selector. -/
theorem selector_timeout_nonfatal_falls_back_witness :
    (getMarkdown noSelEnv selReq liveState).1 =
      Resp.okMarkdown "https://example.com"
        (noSelEnv.turndown (sanitizeHtml noSelEnv.fullHtml)) noSelEnv.pageTitle :=
  (selector_timeout_nonfatal_falls_back noSelEnv selReq liveState "https://example.com"
    "https://example.com" ".main" 0 1 rfl (by decide) (by decide) rfl rfl rfl rfl
    rfl rfl rfl).1

/-- Claim C5, the failing execution: two get-markdown requests arrive
while no browser exists; the event loop runs the null check of the first
request, then the null check of the second (the first launch still in
flight), then the two launch resolutions.  Both requests pass the check
and invoke puppeteer.launch, so two launch sequences are executed rather
than the exactly one the claim requires, and the second assignment
overwrites the handle produced by the first. -/
theorem concurrent_ensureLive_double_launch :
    (concRun (concInit 2) [0, 1, 0, 1]).launchCount = 2 ∧
    (concRun (concInit 2) [0, 1, 0, 1]).launchCount ≠ 1 ∧
    (concRun (concInit 2) [0, 1, 0, 1]).pcs = [EnsurePC.done, EnsurePC.done] ∧
    (concRun (concInit 2) [0, 1, 0, 1]).browser = some 1 := by
  refine ⟨?_, ?_, ?_, ?_⟩ <;> decide

end ChromePageServer
